import Mathlib

/-!
Shallow embedding of the music-sync WebSocket server
(`server/websocket-server.js`, class `MusicSyncServer`).

Numbers appearing in messages and timestamps are modelled as rationals
(JavaScript arithmetic on the values used here is exact).  A missing
field of a JSON message is modelled as `none`.  A WebSocket connection
is identified by its client id string (the server's `clients` map keys
each socket by an injectively assigned uuid, so the socket and the id
are interchangeable).  Outbound traffic of a handler is returned as a
list of `(recipient client id, message)` pairs, in emission order.
-/

namespace MusicSync

/-- Song value supplied by clients (`message.song`); the server treats it
as opaque data, echoing it verbatim. -/
structure Song where
  id : String
  title : String
deriving DecidableEq, Repr

/-- Per-room playback state (`room.playbackState`).  `songId` and
`triggeredBy` are absent on a freshly created room and are added by the
handlers that spread them into the object. -/
structure PlaybackState where
  isPlaying : Bool
  currentSong : Option Song
  position : ℚ
  startTime : Option ℚ
  lastUpdated : ℚ
  songId : Option String
  triggeredBy : Option String
deriving DecidableEq, Repr

/-- A room (`this.rooms` entry): member sockets (as client ids, in
insertion order, no duplicates — a JS `Set`), FIFO queue, playback state. -/
structure Room where
  id : String
  clients : List String
  queue : List Song
  playbackState : PlaybackState
deriving DecidableEq, Repr

/-- Per-connection info (`this.clients` entry). -/
structure Client where
  id : String
  roomId : Option String
deriving DecidableEq, Repr

/-- Whole-server state: the `rooms` and `clients` maps. -/
structure ServerState where
  rooms : List Room
  clients : List Client
deriving DecidableEq, Repr

/-- Inbound messages, by `message.type`, with the fields each handler
reads.  `unknown` covers any unrecognized `type` tag. -/
inductive InMsg where
  | join_room (roomId : Option String)
  | leave_room
  | play
  | pause
  | seek (position : Option ℚ)
  | song_change (song : Option Song)
  | sync_request
  | server_play (position : Option ℚ) (songId : Option String)
  | client_pause
  | client_resume
  | playback_ended
  | get_room_state (requestId : Option String)
  | add_song (song : Song) (setAsCurrent : Bool)
  | unknown (t : String)
deriving DecidableEq, Repr

/-- Outbound messages, by `type`, with their payload fields. -/
inductive Out where
  | connected (clientId : String) (serverTime : ℚ)
  | error (message : String) (timestamp : ℚ)
  | room_joined (roomId : String) (playbackState : PlaybackState) (clientCount : Nat)
  | client_joined (clientId : String) (clientCount : Nat)
  | client_left (clientId : String) (clientCount : Nat)
  | server_state_sync (playbackState : PlaybackState) (serverTime : ℚ) (isServerPlaying : Bool)
  | server_play_sync (position : ℚ) (serverTime : ℚ) (startTime : Option ℚ)
      (songId : Option String) (triggeredBy : String)
  | seek_sync (position : ℚ) (isPlaying : Bool) (serverTime : ℚ) (startTime : Option ℚ)
      (triggeredBy : String)
  | song_change_sync (song : Option Song) (serverTime : ℚ) (startTime : ℚ) (triggeredBy : String)
  | new_song_notification (song : Song) (startTime : ℚ) (serverTime : ℚ) (wasIdle : Option Bool)
  | client_pause_ack (clientId : String) (timestamp : ℚ)
  | sync_response (playbackState : PlaybackState) (serverTime : ℚ)
  | room_state_response (currentSong : Option Song) (queue : List Song) (isPlaying : Bool)
      (position : ℚ) (startTime : Option ℚ) (serverTime : ℚ) (requestId : Option String)
  | song_added_response (success : Bool) (song : Song) (setAsCurrent : Bool) (queueLength : Nat)
deriving DecidableEq, Repr

/-- Unicast plus broadcast output of one handled event. -/
abbrev Sends := List (String × Out)

/-- JavaScript `v || d` for an optional numeric field: a missing value and
the falsy number `0` both give the default. -/
def jsNumOr (v : Option ℚ) (d : ℚ) : ℚ :=
  match v with
  | none => d
  | some n => if n = 0 then d else n

/-- JavaScript truthiness of an optional numeric value (`null` and `0` are
falsy), as used in `if (… && room.playbackState.startTime)`. -/
def jsTruthyNum (v : Option ℚ) : Bool :=
  match v with
  | none => false
  | some n => n != 0

/-- `this.rooms.get(roomId)`. -/
def findRoom (rs : List Room) (rid : String) : Option Room :=
  rs.find? (fun r => r.id == rid)

/-- Replace the room with the given id (in-place mutation of the room
object held in `this.rooms`). -/
def setRoom (rs : List Room) (r : Room) : List Room :=
  rs.map (fun x => if x.id = r.id then r else x)

/-- `this.rooms.delete(roomId)`. -/
def removeRoom (rs : List Room) (rid : String) : List Room :=
  rs.filter (fun r => r.id != rid)

/-- `this.clients.get(ws)`. -/
def getClient (s : ServerState) (cid : String) : Option Client :=
  s.clients.find? (fun x => x.id == cid)

/-- In-place mutation of the client record held in `this.clients`. -/
def setClient (cs : List Client) (c : Client) : List Client :=
  cs.map (fun x => if x.id = c.id then c else x)

/-- `room.clients.add(ws)` — a JS `Set` add: no-op when already a member,
otherwise appended in insertion order. -/
def addClientId (l : List String) (cid : String) : List String :=
  if cid ∈ l then l else l ++ [cid]

/-- `broadcastToRoom(roomId, message, excludeWs)` — deliver to every member
of the room other than `excludeWs` (all sockets modelled as open). -/
def broadcastToRoom (room : Room) (m : Out) (excludeWs : Option String) : Sends :=
  match excludeWs with
  | none => room.clients.map (fun w => (w, m))
  | some e => (room.clients.filter (fun w => w != e)).map (fun w => (w, m))

/-- Playback state of a newly created room (`handleJoinRoom`, room
creation branch). -/
def freshPlayback (now : ℚ) : PlaybackState :=
  { isPlaying := false
    currentSong := none
    position := 0
    startTime := none
    lastUpdated := now
    songId := none
    triggeredBy := none }

/-- A newly created room: empty member set, empty queue, idle state. -/
def freshRoom (rid : String) (now : ℚ) : Room :=
  { id := rid, clients := [], queue := [], playbackState := freshPlayback now }

/-- Position reported by `sendCurrentServerState` and `handleSyncRequest`:
derived from `startTime` while playing, else the stored position. -/
def currentDerivedPosition (ps : PlaybackState) (now : ℚ) : ℚ :=
  if ps.isPlaying && jsTruthyNum ps.startTime then (now - ps.startTime.getD 0) / 1000
  else ps.position

/-- `sendCurrentServerState(ws, room)`: unicast a `server_state_sync` whose
playback state carries the derived position. -/
def sendCurrentServerState (cid : String) (room : Room) (now : ℚ) : String × Out :=
  (cid, .server_state_sync
    { room.playbackState with position := currentDerivedPosition room.playbackState now }
    now room.playbackState.isPlaying)

/-- Common prologue of the room-scoped handlers: `if (!client.roomId)
return; const room = this.rooms.get(client.roomId); if (!room) return;`. -/
def withRoom (s : ServerState) (c : Client)
    (f : String → Room → ServerState × Sends) : ServerState × Sends :=
  match c.roomId with
  | none => (s, [])
  | some rid =>
    match findRoom s.rooms rid with
    | none => (s, [])
    | some room => f rid room

/-- `handleLeaveRoom`: detach from the current room (if any), notify the
remaining members, delete the room when it became empty, and clear the
client's room reference. -/
def handleLeaveRoom (s : ServerState) (c : Client) : ServerState × Sends :=
  match c.roomId with
  | none => (s, [])
  | some rid =>
    match findRoom s.rooms rid with
    | none =>
      ({ s with clients := setClient s.clients { c with roomId := none } }, [])
    | some room =>
      let room' := { room with clients := room.clients.filter (fun w => w != c.id) }
      let outs := broadcastToRoom room' (.client_left c.id room'.clients.length) none
      let rooms' := if room'.clients.length = 0
        then removeRoom (setRoom s.rooms room') rid
        else setRoom s.rooms room'
      ({ s with
          rooms := rooms'
          clients := setClient s.clients { c with roomId := none } }, outs)

/-- `handleJoinRoom`: leave the previous room, get-or-create the target
room, attach, reply `room_joined` plus `server_state_sync`, notify the
other members. -/
def handleJoinRoom (s : ServerState) (c : Client) (roomId : Option String) (now : ℚ) :
    ServerState × Sends :=
  match roomId with
  | none => (s, [(c.id, .error "Room ID is required" now)])
  | some rid =>
    if rid = "" then (s, [(c.id, .error "Room ID is required" now)])
    else
      let s1 := if c.roomId.isSome then (handleLeaveRoom s c).1 else s
      let outs1 := if c.roomId.isSome then (handleLeaveRoom s c).2 else []
      let s2 := { s1 with clients := setClient s1.clients { c with roomId := some rid } }
      let room := (findRoom s2.rooms rid).getD (freshRoom rid now)
      let roomsBase := if (findRoom s2.rooms rid).isSome then s2.rooms
        else s2.rooms ++ [freshRoom rid now]
      let room' := { room with clients := addClientId room.clients c.id }
      let s3 := { s2 with rooms := setRoom roomsBase room' }
      (s3,
        outs1
          ++ [(c.id, .room_joined rid room'.playbackState room'.clients.length)]
          ++ [sendCurrentServerState c.id room' now]
          ++ broadcastToRoom room' (.client_joined c.id room'.clients.length) (some c.id))

/-- `handlePlay` / `handlePause`: no server-state change, reply with the
current server state. -/
def handleLocalIntent (s : ServerState) (c : Client) (now : ℚ) : ServerState × Sends :=
  withRoom s c fun _rid room => (s, [sendCurrentServerState c.id room now])

/-- `handleServerPlay`: server-authoritative play at the given position;
does not touch `currentSong`. -/
def handleServerPlay (s : ServerState) (c : Client) (position : Option ℚ)
    (songId : Option String) (now : ℚ) : ServerState × Sends :=
  withRoom s c fun _rid room =>
    let pos := jsNumOr position 0
    let ps' := { room.playbackState with
      isPlaying := true
      position := pos
      startTime := some (now - pos * 1000)
      lastUpdated := now
      songId := songId
      triggeredBy := some c.id }
    let room' := { room with playbackState := ps' }
    ({ s with rooms := setRoom s.rooms room' },
      broadcastToRoom room'
        (.server_play_sync (jsNumOr position 0) now ps'.startTime songId c.id) none)

/-- `handleSeek`: store the seek position; recompute `startTime` when
playing, clear it otherwise; broadcast `seek_sync` to the whole room. -/
def handleSeek (s : ServerState) (c : Client) (position : Option ℚ) (now : ℚ) :
    ServerState × Sends :=
  withRoom s c fun _rid room =>
    let seekPosition := jsNumOr position 0
    let ps' := { room.playbackState with
      position := seekPosition
      startTime := if room.playbackState.isPlaying then some (now - seekPosition * 1000) else none
      lastUpdated := now
      triggeredBy := some c.id }
    let room' := { room with playbackState := ps' }
    ({ s with rooms := setRoom s.rooms room' },
      broadcastToRoom room'
        (.seek_sync seekPosition room'.playbackState.isPlaying now room'.playbackState.startTime
          c.id) none)

/-- `handleSongChange`: install the song, auto-start it, broadcast
`song_change_sync`. -/
def handleSongChange (s : ServerState) (c : Client) (song : Option Song) (now : ℚ) :
    ServerState × Sends :=
  withRoom s c fun _rid room =>
    let ps' := { room.playbackState with
      currentSong := song
      position := 0
      startTime := some now
      isPlaying := true
      lastUpdated := now
      triggeredBy := some c.id }
    let room' := { room with playbackState := ps' }
    ({ s with rooms := setRoom s.rooms room' },
      broadcastToRoom room' (.song_change_sync song now now c.id) none)

/-- `handleClientPause`: acknowledge a local pause, with no room check and
no server-state change. -/
def handleClientPause (s : ServerState) (c : Client) (now : ℚ) : ServerState × Sends :=
  (s, [(c.id, .client_pause_ack c.id now)])

/-- `handleClientResume`: resync the resuming client to the server state. -/
def handleClientResume (s : ServerState) (c : Client) (now : ℚ) : ServerState × Sends :=
  withRoom s c fun _rid room => (s, [sendCurrentServerState c.id room now])

/-- `handlePlaybackEnded`: auto-advance to the queue head when the queue is
non-empty (broadcasting `new_song_notification`), otherwise fall back to
the idle state with no broadcast. -/
def handlePlaybackEnded (s : ServerState) (c : Client) (now : ℚ) : ServerState × Sends :=
  withRoom s c fun _rid room =>
    match room.queue with
    | nextSong :: rest =>
      let ps' := { room.playbackState with
        currentSong := some nextSong
        position := 0
        startTime := some now
        isPlaying := true
        lastUpdated := now
        triggeredBy := some "server" }
      let room' := { room with queue := rest, playbackState := ps' }
      ({ s with rooms := setRoom s.rooms room' },
        broadcastToRoom room' (.new_song_notification nextSong now now none) none)
    | [] =>
      let ps' := { room.playbackState with
        isPlaying := false
        currentSong := none
        position := 0
        startTime := none
        lastUpdated := now
        triggeredBy := some c.id }
      ({ s with rooms := setRoom s.rooms { room with playbackState := ps' } }, [])

/-- `handleGetRoomState`: report the room; the position is derived (and
clamped to ≥ 0) when playing, else reported as 0. -/
def handleGetRoomState (s : ServerState) (c : Client) (requestId : Option String) (now : ℚ) :
    ServerState × Sends :=
  withRoom s c fun _rid room =>
    let ps := room.playbackState
    let currentPosition :=
      if ps.isPlaying && jsTruthyNum ps.startTime then max 0 ((now - ps.startTime.getD 0) / 1000)
      else 0
    (s, [(c.id, .room_state_response ps.currentSong room.queue ps.isPlaying currentPosition
      ps.startTime now requestId)])

/-- `handleAddSong`: promote to current song when forced or when the room
has no current song (broadcasting `new_song_notification` in the idle
case), else enqueue; always confirm with `song_added_response` computed
from the already-updated room. -/
def handleAddSong (s : ServerState) (c : Client) (song : Song) (setAsCurrent : Bool) (now : ℚ) :
    ServerState × Sends :=
  withRoom s c fun _rid room =>
    if setAsCurrent || room.playbackState.currentSong.isNone then
      let wasIdle := room.playbackState.currentSong.isNone
      let ps' := { room.playbackState with
        currentSong := some song
        position := 0
        startTime := some now
        isPlaying := true
        lastUpdated := now
        triggeredBy := some c.id }
      let room' := { room with playbackState := ps' }
      let notif :=
        if wasIdle then broadcastToRoom room' (.new_song_notification song now now (some true)) none
        else []
      ({ s with rooms := setRoom s.rooms room' },
        notif ++ [(c.id, .song_added_response true song
          (setAsCurrent || room'.playbackState.currentSong.isNone) room'.queue.length)])
    else
      let room' := { room with queue := room.queue ++ [song] }
      ({ s with rooms := setRoom s.rooms room' },
        [(c.id, .song_added_response true song
          (setAsCurrent || room'.playbackState.currentSong.isNone) room'.queue.length)])

/-- `handleSyncRequest`: unicast the current state with derived position. -/
def handleSyncRequest (s : ServerState) (c : Client) (now : ℚ) : ServerState × Sends :=
  withRoom s c fun _rid room =>
    (s, [(c.id, .sync_response
      { room.playbackState with position := currentDerivedPosition room.playbackState now } now)])

/-- `handleMessage`: look the sender up and dispatch on `message.type`;
unknown senders are dropped, unknown types get an `error` unicast. -/
def handleMessage (s : ServerState) (cid : String) (m : InMsg) (now : ℚ) :
    ServerState × Sends :=
  match getClient s cid with
  | none => (s, [])
  | some c =>
    match m with
    | .join_room roomId => handleJoinRoom s c roomId now
    | .leave_room => handleLeaveRoom s c
    | .play => handleLocalIntent s c now
    | .pause => handleLocalIntent s c now
    | .seek position => handleSeek s c position now
    | .song_change song => handleSongChange s c song now
    | .sync_request => handleSyncRequest s c now
    | .server_play position songId => handleServerPlay s c position songId now
    | .client_pause => handleClientPause s c now
    | .client_resume => handleClientResume s c now
    | .playback_ended => handlePlaybackEnded s c now
    | .get_room_state requestId => handleGetRoomState s c requestId now
    | .add_song song setAsCurrent => handleAddSong s c song setAsCurrent now
    | .unknown t => (s, [(c.id, .error ("Unknown message type: " ++ t) now)])

/-- External events driving the server: a connection (fresh client record
plus `connected` welcome), a disconnect (leave room, drop the record), or
an inbound message. -/
inductive Event where
  | connect (cid : String)
  | disconnect (cid : String)
  | msg (cid : String) (m : InMsg)
deriving DecidableEq, Repr

/-- One event step of the server. -/
def step (s : ServerState) (e : Event) (now : ℚ) : ServerState × Sends :=
  match e with
  | .connect cid =>
    if (getClient s cid).isSome then (s, [])
    else ({ s with clients := s.clients ++ [{ id := cid, roomId := none }] },
      [(cid, .connected cid now)])
  | .disconnect cid =>
    match getClient s cid with
    | none => (s, [])
    | some c =>
      ({ (handleLeaveRoom s c).1 with
          clients := (handleLeaveRoom s c).1.clients.filter (fun x => x.id != cid) },
        (handleLeaveRoom s c).2)
  | .msg cid m => handleMessage s cid m now

/-- Server state before any connection. -/
def initialState : ServerState := { rooms := [], clients := [] }

/-- Run a timed event trace from the initial state. -/
def runEvents (es : List (Event × ℚ)) : ServerState :=
  es.foldl (fun s et => (step s et.1 et.2).1) initialState

/-- Startup port argument (`new MusicSyncServer(process.env.PORT || 8081)`):
an unset or empty `PORT` yields the number 8081, any other value is passed
through as the raw string. -/
def startupPortArg (envPORT : Option String) : String ⊕ Nat :=
  match envPORT with
  | none => Sum.inr 8081
  | some v => if v = "" then Sum.inr 8081 else Sum.inl v

/-- Default of the constructor parameter (`constructor(port = 8080)`);
unused because the startup call always passes an argument. -/
def constructorPortDefault : Nat := 8080

/-! ### Basic lemmas about the registry operations -/

theorem findRoom_id_eq {rs : List Room} {rid : String} {r : Room}
    (h : findRoom rs rid = some r) : r.id = rid := by
  have := List.find?_some h
  simpa using this

theorem findRoom_mem {rs : List Room} {rid : String} {r : Room}
    (h : findRoom rs rid = some r) : r ∈ rs :=
  List.mem_of_find?_eq_some h

theorem findRoom_setRoom_self {rs : List Room} {rid : String} {r0 : Room} (r' : Room)
    (h : findRoom rs rid = some r0) (hid : r'.id = rid) :
    findRoom (setRoom rs r') rid = some r' := by
  induction rs with
  | nil => simp [findRoom] at h
  | cons x xs ih =>
    have hgoal : findRoom (setRoom (x :: xs) r') rid
        = List.find? (fun r => r.id == rid) ((if x.id = r'.id then r' else x) :: setRoom xs r') :=
      rfl
    by_cases hx : x.id = rid
    · rw [hgoal, if_pos (by rw [hx, hid])]
      exact List.find?_cons_of_pos _ (by simp [hid])
    · have hx2 : ¬ ((fun r : Room => r.id == rid) x) = true := by simp [hx]
      have h' : findRoom xs rid = some r0 :=
        (List.find?_cons_of_neg xs hx2).symm.trans h
      rw [hgoal, if_neg (by rw [hid]; exact hx)]
      exact (List.find?_cons_of_neg (setRoom xs r') hx2).trans (ih h')

theorem findRoom_removeRoom_self (rs : List Room) (rid : String) :
    findRoom (removeRoom rs rid) rid = none := by
  induction rs with
  | nil => rfl
  | cons x xs ih =>
    by_cases hx : x.id = rid
    · simpa [removeRoom, hx] using ih
    · have : (x.id != rid) = true := by simp [hx]
      simp only [removeRoom, List.filter_cons, this, if_pos trivial, findRoom]
      rw [List.find?_cons_of_neg _ (by simp [hx])]
      exact ih

theorem findRoom_append_single {rs : List Room} {rid : String} (r : Room)
    (h : findRoom rs rid = none) (hid : r.id = rid) :
    findRoom (rs ++ [r]) rid = some r := by
  simp only [findRoom] at h ⊢
  rw [List.find?_append, h]
  simp [hid]

theorem getClient_id_eq {s : ServerState} {cid : String} {c : Client}
    (h : getClient s cid = some c) : c.id = cid := by
  have := List.find?_some h
  simpa using this

theorem find?Client_setClient_self {cs : List Client} {cid : String} {c0 : Client} (c' : Client)
    (h : cs.find? (fun x => x.id == cid) = some c0) (hid : c'.id = cid) :
    (setClient cs c').find? (fun x => x.id == cid) = some c' := by
  induction cs with
  | nil => simp at h
  | cons x xs ih =>
    have hgoal : (setClient (x :: xs) c').find? (fun x => x.id == cid)
        = List.find? (fun x : Client => x.id == cid)
            ((if x.id = c'.id then c' else x) :: setClient xs c') :=
      rfl
    by_cases hx : x.id = cid
    · rw [hgoal, if_pos (by rw [hx, hid])]
      exact List.find?_cons_of_pos _ (by simp [hid])
    · have hx2 : ¬ ((fun x : Client => x.id == cid) x) = true := by simp [hx]
      have h' : xs.find? (fun x => x.id == cid) = some c0 :=
        (List.find?_cons_of_neg xs hx2).symm.trans h
      rw [hgoal, if_neg (by rw [hid]; exact hx)]
      exact (List.find?_cons_of_neg (setClient xs c') hx2).trans (ih h')

theorem mem_addClientId_self (l : List String) (x : String) : x ∈ addClientId l x := by
  unfold addClientId
  split <;> simp [*]

theorem jsNumOr_some (p : ℚ) : jsNumOr (some p) 0 = p := by
  show (if p = 0 then (0 : ℚ) else p) = p
  split <;> simp [*]

theorem jsNumOr_none (d : ℚ) : jsNumOr none d = d := rfl

/-! ### Claim theorems -/

/-- C4: `playback_ended` in a room with a non-empty queue dequeues the
head, makes it the current song at position 0 with `start_time = now`,
`is_playing = true` and `triggered_by = "server"`, broadcasts
`new_song_notification { song, startTime, serverTime }` (no `wasIdle`) to
all members including the originator, and shrinks the queue by one. -/
theorem playbackEnded_nonempty_queue_advances
    (S : ServerState) (cid R : String) (c : Client) (room : Room)
    (nextSong : Song) (rest : List Song) (now : ℚ)
    (hc : getClient S cid = some c) (hR : c.roomId = some R)
    (hroom : findRoom S.rooms R = some room) (hq : room.queue = nextSong :: rest)
    (hmem : cid ∈ room.clients) :
    (findRoom (step S (.msg cid .playback_ended) now).1.rooms R).map
        (fun r => (r.playbackState.currentSong, r.playbackState.position,
          r.playbackState.startTime, r.playbackState.isPlaying,
          r.playbackState.triggeredBy, r.queue))
      = some (some nextSong, 0, some now, true, some "server", rest)
    ∧ (step S (.msg cid .playback_ended) now).2
      = room.clients.map (fun w => (w, Out.new_song_notification nextSong now now none))
    ∧ (cid, Out.new_song_notification nextSong now now none)
        ∈ (step S (.msg cid .playback_ended) now).2
    ∧ room.queue.length = rest.length + 1 := by
  have hid : room.id = R := findRoom_id_eq hroom
  simp only [step, handleMessage, hc, handlePlaybackEnded, withRoom, hR, hroom, hq]
  rw [findRoom_setRoom_self _ hroom (by simpa using hid)]
  refine ⟨rfl, rfl, ?_, by simp [hq]⟩
  exact List.mem_map_of_mem _ hmem

/-- C4 witness: a concrete two-member playing room with queue `[s2]`. -/
theorem playbackEnded_nonempty_queue_advances_witness :
    (findRoom (step
        ⟨[⟨"room1", ["A", "B"], [⟨"s2", "Y"⟩],
            ⟨true, some ⟨"s1", "X"⟩, 0, some 900, 900, none, none⟩⟩],
          [⟨"A", some "room1"⟩, ⟨"B", some "room1"⟩]⟩
        (.msg "A" .playback_ended) 1000).1.rooms "room1").map
        (fun r => (r.playbackState.currentSong, r.playbackState.position,
          r.playbackState.startTime, r.playbackState.isPlaying,
          r.playbackState.triggeredBy, r.queue))
      = some (some ⟨"s2", "Y"⟩, 0, some 1000, true, some "server", [])
    ∧ (step
        ⟨[⟨"room1", ["A", "B"], [⟨"s2", "Y"⟩],
            ⟨true, some ⟨"s1", "X"⟩, 0, some 900, 900, none, none⟩⟩],
          [⟨"A", some "room1"⟩, ⟨"B", some "room1"⟩]⟩
        (.msg "A" .playback_ended) 1000).2
      = ["A", "B"].map (fun w => (w, Out.new_song_notification ⟨"s2", "Y"⟩ 1000 1000 none))
    ∧ ("A", Out.new_song_notification ⟨"s2", "Y"⟩ 1000 1000 none)
        ∈ (step
        ⟨[⟨"room1", ["A", "B"], [⟨"s2", "Y"⟩],
            ⟨true, some ⟨"s1", "X"⟩, 0, some 900, 900, none, none⟩⟩],
          [⟨"A", some "room1"⟩, ⟨"B", some "room1"⟩]⟩
        (.msg "A" .playback_ended) 1000).2
    ∧ ([⟨"s2", "Y"⟩] : List Song).length = ([] : List Song).length + 1 :=
  playbackEnded_nonempty_queue_advances _ "A" "room1" ⟨"A", some "room1"⟩
    ⟨"room1", ["A", "B"], [⟨"s2", "Y"⟩], ⟨true, some ⟨"s1", "X"⟩, 0, some 900, 900, none, none⟩⟩
    ⟨"s2", "Y"⟩ [] 1000 (by decide) (by decide) (by decide) (by decide) (by decide)

/-- C7: `playback_ended` in a room with an empty queue moves the room to
the idle state (`is_playing = false`, `current_song = none`,
`position = 0`, `start_time = none`) and emits no message at all. -/
theorem playbackEnded_empty_queue_goes_idle
    (S : ServerState) (cid R : String) (c : Client) (room : Room) (now : ℚ)
    (hc : getClient S cid = some c) (hR : c.roomId = some R)
    (hroom : findRoom S.rooms R = some room) (hq : room.queue = []) :
    (findRoom (step S (.msg cid .playback_ended) now).1.rooms R).map
        (fun r => (r.playbackState.isPlaying, r.playbackState.currentSong,
          r.playbackState.position, r.playbackState.startTime))
      = some (false, none, 0, none)
    ∧ (step S (.msg cid .playback_ended) now).2 = [] := by
  have hid : room.id = R := findRoom_id_eq hroom
  simp only [step, handleMessage, hc, handlePlaybackEnded, withRoom, hR, hroom, hq]
  rw [findRoom_setRoom_self _ hroom (by simpa using hid)]
  exact ⟨rfl, trivial⟩

/-- C7 witness: a concrete playing room with an empty queue. -/
theorem playbackEnded_empty_queue_goes_idle_witness :
    (findRoom (step
        ⟨[⟨"room1", ["A"], [], ⟨true, some ⟨"s2", "Y"⟩, 0, some 900, 900, none, none⟩⟩],
          [⟨"A", some "room1"⟩]⟩
        (.msg "A" .playback_ended) 1000).1.rooms "room1").map
        (fun r => (r.playbackState.isPlaying, r.playbackState.currentSong,
          r.playbackState.position, r.playbackState.startTime))
      = some (false, none, 0, none)
    ∧ (step
        ⟨[⟨"room1", ["A"], [], ⟨true, some ⟨"s2", "Y"⟩, 0, some 900, 900, none, none⟩⟩],
          [⟨"A", some "room1"⟩]⟩
        (.msg "A" .playback_ended) 1000).2 = [] :=
  playbackEnded_empty_queue_goes_idle _ "A" "room1" ⟨"A", some "room1"⟩
    ⟨"room1", ["A"], [], ⟨true, some ⟨"s2", "Y"⟩, 0, some 900, 900, none, none⟩⟩
    1000 (by decide) (by decide) (by decide) (by decide)

/-- C8: `seek` with position `p` stores `position = p`, sets
`start_time = now − p·1000` when playing and clears it otherwise, and
broadcasts a `seek_sync` carrying position, isPlaying, serverTime,
startTime and triggeredBy to every member including the originator. -/
theorem seek_stores_position_and_broadcasts
    (S : ServerState) (cid R : String) (c : Client) (room : Room) (p now : ℚ)
    (hc : getClient S cid = some c) (hR : c.roomId = some R)
    (hroom : findRoom S.rooms R = some room) (hmem : cid ∈ room.clients) :
    (findRoom (step S (.msg cid (.seek (some p))) now).1.rooms R).map
        (fun r => (r.playbackState.position, r.playbackState.startTime,
          r.playbackState.isPlaying))
      = some (p,
          if room.playbackState.isPlaying then some (now - p * 1000) else none,
          room.playbackState.isPlaying)
    ∧ (step S (.msg cid (.seek (some p))) now).2
      = room.clients.map (fun w => (w, Out.seek_sync p room.playbackState.isPlaying now
          (if room.playbackState.isPlaying then some (now - p * 1000) else none) cid))
    ∧ (cid, Out.seek_sync p room.playbackState.isPlaying now
          (if room.playbackState.isPlaying then some (now - p * 1000) else none) cid)
        ∈ (step S (.msg cid (.seek (some p))) now).2 := by
  have hid : room.id = R := findRoom_id_eq hroom
  have hcid : c.id = cid := getClient_id_eq hc
  simp only [step, handleMessage, hc, handleSeek, withRoom, hR, hroom, jsNumOr_some, hcid]
  rw [findRoom_setRoom_self _ hroom (by simpa using hid)]
  refine ⟨rfl, rfl, ?_⟩
  exact List.mem_map_of_mem _ hmem

/-- C8 witness: a concrete playing room, seek to position 30. -/
theorem seek_stores_position_and_broadcasts_witness :
    (findRoom (step
        ⟨[⟨"room1", ["A", "B"], [], ⟨true, some ⟨"s1", "X"⟩, 0, some 900, 900, none, none⟩⟩],
          [⟨"A", some "room1"⟩, ⟨"B", some "room1"⟩]⟩
        (.msg "A" (.seek (some 30))) 1000).1.rooms "room1").map
        (fun r => (r.playbackState.position, r.playbackState.startTime,
          r.playbackState.isPlaying))
      = some (30,
          if (⟨true, some ⟨"s1", "X"⟩, 0, some 900, 900, none, none⟩
            : PlaybackState).isPlaying then some (1000 - 30 * 1000) else none,
          (⟨true, some ⟨"s1", "X"⟩, 0, some 900, 900, none, none⟩
            : PlaybackState).isPlaying)
    ∧ (step
        ⟨[⟨"room1", ["A", "B"], [], ⟨true, some ⟨"s1", "X"⟩, 0, some 900, 900, none, none⟩⟩],
          [⟨"A", some "room1"⟩, ⟨"B", some "room1"⟩]⟩
        (.msg "A" (.seek (some 30))) 1000).2
      = ["A", "B"].map (fun w => (w,
          Out.seek_sync 30
            (⟨true, some ⟨"s1", "X"⟩, 0, some 900, 900, none, none⟩ : PlaybackState).isPlaying
            1000
            (if (⟨true, some ⟨"s1", "X"⟩, 0, some 900, 900, none, none⟩
              : PlaybackState).isPlaying then some (1000 - 30 * 1000) else none) "A"))
    ∧ ("A", Out.seek_sync 30
          (⟨true, some ⟨"s1", "X"⟩, 0, some 900, 900, none, none⟩ : PlaybackState).isPlaying
          1000
          (if (⟨true, some ⟨"s1", "X"⟩, 0, some 900, 900, none, none⟩
            : PlaybackState).isPlaying then some (1000 - 30 * 1000) else none) "A")
        ∈ (step
        ⟨[⟨"room1", ["A", "B"], [], ⟨true, some ⟨"s1", "X"⟩, 0, some 900, 900, none, none⟩⟩],
          [⟨"A", some "room1"⟩, ⟨"B", some "room1"⟩]⟩
        (.msg "A" (.seek (some 30))) 1000).2 :=
  seek_stores_position_and_broadcasts _ "A" "room1" ⟨"A", some "room1"⟩
    ⟨"room1", ["A", "B"], [], ⟨true, some ⟨"s1", "X"⟩, 0, some 900, 900, none, none⟩⟩
    30 1000 (by decide) (by decide) (by decide) (by decide)

/-- C1 (amended): `add_song` with `setAsCurrent=false` on an idle room
promotes the song to current (position 0, `start_time = now`,
`is_playing = true`) and broadcasts `new_song_notification` with
`wasIdle:true` to all members; the unicast `song_added_response` has
`success:true` and `queueLength:0`, but its `setAsCurrent` field is
`false`, because the handler recomputes it after the song is already
installed as current. -/
theorem addSong_idle_promotes
    (S : ServerState) (cid R : String) (c : Client) (room : Room) (song : Song) (now : ℚ)
    (hc : getClient S cid = some c) (hR : c.roomId = some R)
    (hroom : findRoom S.rooms R = some room)
    (hsong : room.playbackState.currentSong = none)
    (_hplay : room.playbackState.isPlaying = false)
    (hq : room.queue = []) (hmem : cid ∈ room.clients) :
    (findRoom (step S (.msg cid (.add_song song false)) now).1.rooms R).map
        (fun r => (r.playbackState.currentSong, r.playbackState.position,
          r.playbackState.startTime, r.playbackState.isPlaying))
      = some (some song, 0, some now, true)
    ∧ (step S (.msg cid (.add_song song false)) now).2
      = room.clients.map (fun w => (w, Out.new_song_notification song now now (some true)))
        ++ [(cid, Out.song_added_response true song false 0)]
    ∧ (cid, Out.new_song_notification song now now (some true))
        ∈ (step S (.msg cid (.add_song song false)) now).2 := by
  have hid : room.id = R := findRoom_id_eq hroom
  have hcid : c.id = cid := getClient_id_eq hc
  simp only [step, handleMessage, hc, handleAddSong, withRoom, hR, hroom, hsong,
    Option.isNone_none, Bool.false_or, if_true, hcid, hq, Option.isNone_some,
    Bool.or_false, List.length_nil]
  rw [findRoom_setRoom_self _ hroom (by simpa using hid)]
  refine ⟨rfl, rfl, ?_⟩
  exact List.mem_append_left _ (List.mem_map_of_mem _ hmem)

/-- C1 witness: sole member `A`, fresh idle room, `add_song` with
`setAsCurrent=false`. -/
theorem addSong_idle_promotes_witness :
    (findRoom (step
        ⟨[⟨"room1", ["A"], [], freshPlayback 0⟩], [⟨"A", some "room1"⟩]⟩
        (.msg "A" (.add_song ⟨"s1", "X"⟩ false)) 2).1.rooms "room1").map
        (fun r => (r.playbackState.currentSong, r.playbackState.position,
          r.playbackState.startTime, r.playbackState.isPlaying))
      = some (some ⟨"s1", "X"⟩, 0, some 2, true)
    ∧ (step ⟨[⟨"room1", ["A"], [], freshPlayback 0⟩], [⟨"A", some "room1"⟩]⟩
        (.msg "A" (.add_song ⟨"s1", "X"⟩ false)) 2).2
      = ["A"].map (fun w => (w, Out.new_song_notification ⟨"s1", "X"⟩ 2 2 (some true)))
        ++ [("A", Out.song_added_response true ⟨"s1", "X"⟩ false 0)]
    ∧ ("A", Out.new_song_notification ⟨"s1", "X"⟩ 2 2 (some true))
        ∈ (step ⟨[⟨"room1", ["A"], [], freshPlayback 0⟩], [⟨"A", some "room1"⟩]⟩
        (.msg "A" (.add_song ⟨"s1", "X"⟩ false)) 2).2 :=
  addSong_idle_promotes _ "A" "room1" ⟨"A", some "room1"⟩
    ⟨"room1", ["A"], [], freshPlayback 0⟩ ⟨"s1", "X"⟩ 2
    (by decide) (by decide) (by decide) (by decide) (by decide) (by decide) (by decide)

/-- C1 counterexample: in the very scenario of the claim (idle room, sole
member, `setAsCurrent=false`) the unicast `song_added_response` carries
`setAsCurrent:false`, not `setAsCurrent:true` as claimed. -/
theorem addSong_idle_response_cex :
    (step (runEvents [(.connect "A", 0), (.msg "A" (.join_room (some "room1")), 0)])
        (.msg "A" (.add_song ⟨"s1", "X"⟩ false)) 2).2
      = [("A", Out.new_song_notification ⟨"s1", "X"⟩ 2 2 (some true)),
         ("A", Out.song_added_response true ⟨"s1", "X"⟩ false 0)]
    ∧ ¬ ((step (runEvents [(.connect "A", 0), (.msg "A" (.join_room (some "room1")), 0)])
        (.msg "A" (.add_song ⟨"s1", "X"⟩ false)) 2).2
      = [("A", Out.new_song_notification ⟨"s1", "X"⟩ 2 2 (some true)),
         ("A", Out.song_added_response true ⟨"s1", "X"⟩ true 0)]) :=
  ⟨by decide, by decide⟩

/-- C3 (amended): every recognized room-scoped message kind other than
`join_room` and `client_pause` is silently dropped when the sender is in
no room (state unchanged, no output of any kind); `client_pause` also
leaves the state unchanged but always unicasts a `client_pause_ack` to
the originator. -/
theorem roomless_message_silently_ignored
    (S : ServerState) (cid : String) (c : Client) (m : InMsg) (now : ℚ)
    (hc : getClient S cid = some c) (hnone : c.roomId = none)
    (hj : ∀ rid, m ≠ .join_room rid) (hu : ∀ t, m ≠ .unknown t) :
    step S (.msg cid m) now
      = (S, if m = .client_pause then [(cid, Out.client_pause_ack cid now)] else []) := by
  have hcid : c.id = cid := getClient_id_eq hc
  cases m with
  | join_room rid => exact absurd rfl (hj rid)
  | unknown t => exact absurd rfl (hu t)
  | client_pause => simp [step, handleMessage, hc, handleClientPause, hcid]
  | leave_room => simp [step, handleMessage, hc, handleLeaveRoom, hnone]
  | play => simp [step, handleMessage, hc, handleLocalIntent, withRoom, hnone]
  | pause => simp [step, handleMessage, hc, handleLocalIntent, withRoom, hnone]
  | seek p => simp [step, handleMessage, hc, handleSeek, withRoom, hnone]
  | song_change sg => simp [step, handleMessage, hc, handleSongChange, withRoom, hnone]
  | sync_request => simp [step, handleMessage, hc, handleSyncRequest, withRoom, hnone]
  | server_play p sid => simp [step, handleMessage, hc, handleServerPlay, withRoom, hnone]
  | client_resume => simp [step, handleMessage, hc, handleClientResume, withRoom, hnone]
  | playback_ended => simp [step, handleMessage, hc, handlePlaybackEnded, withRoom, hnone]
  | get_room_state rq => simp [step, handleMessage, hc, handleGetRoomState, withRoom, hnone]
  | add_song sg sac => simp [step, handleMessage, hc, handleAddSong, withRoom, hnone]

/-- C3 witness: a roomless client sending `seek` gets nothing back and
changes nothing. -/
theorem roomless_message_silently_ignored_witness :
    step ⟨[], [⟨"A", none⟩]⟩ (.msg "A" (.seek (some 3))) 7
      = (⟨[], [⟨"A", none⟩]⟩, if InMsg.seek (some 3) = .client_pause
          then [("A", Out.client_pause_ack "A" 7)] else []) :=
  roomless_message_silently_ignored _ "A" ⟨"A", none⟩ (.seek (some 3)) 7
    (by decide) (by decide) (by intro rid h; exact InMsg.noConfusion h)
    (by intro t h; exact InMsg.noConfusion h)

/-- C3 counterexample: `client_pause` from a session that is in no room is
not silently ignored — the server unicasts a `client_pause_ack` reply to
the originator. -/
theorem clientPause_roomless_reply_cex :
    (step ⟨[], [⟨"A", none⟩]⟩ (.msg "A" .client_pause) 7).2
      = [("A", Out.client_pause_ack "A" 7)]
    ∧ ¬ ((step ⟨[], [⟨"A", none⟩]⟩ (.msg "A" .client_pause) 7).2 = []) :=
  ⟨by decide, by decide⟩

/-- C5 (amended): a missing `position` field defaults to 0, but a supplied
value is used verbatim with no clamping: a negative `p` is stored in
`position_seconds` and pushes `start_time` to `now − p·1000`; the only
clamp to ≥ 0 is applied to the derived position reported by
`get_room_state`. -/
theorem position_field_defaults_and_no_clamp
    (S : ServerState) (cid R : String) (c : Client) (room : Room) (p now : ℚ)
    (sid rq : Option String)
    (hc : getClient S cid = some c) (hR : c.roomId = some R)
    (hroom : findRoom S.rooms R = some room) :
    ((findRoom (step S (.msg cid (.seek none)) now).1.rooms R).map
        (fun r => r.playbackState.position) = some 0)
    ∧ ((findRoom (step S (.msg cid (.seek (some p))) now).1.rooms R).map
        (fun r => (r.playbackState.position, r.playbackState.startTime))
      = some (p, if room.playbackState.isPlaying then some (now - p * 1000) else none))
    ∧ ((findRoom (step S (.msg cid (.server_play (some p) sid)) now).1.rooms R).map
        (fun r => (r.playbackState.position, r.playbackState.startTime))
      = some (p, some (now - p * 1000)))
    ∧ ((findRoom (step S (.msg cid (.server_play none sid)) now).1.rooms R).map
        (fun r => r.playbackState.position) = some 0)
    ∧ ((step S (.msg cid (.get_room_state rq)) now).2
      = [(cid, Out.room_state_response room.playbackState.currentSong room.queue
          room.playbackState.isPlaying
          (if room.playbackState.isPlaying && jsTruthyNum room.playbackState.startTime
            then max 0 ((now - room.playbackState.startTime.getD 0) / 1000) else 0)
          room.playbackState.startTime now rq)])
    ∧ (0 ≤ if room.playbackState.isPlaying && jsTruthyNum room.playbackState.startTime
          then max 0 ((now - room.playbackState.startTime.getD 0) / 1000) else 0) := by
  have hid : room.id = R := findRoom_id_eq hroom
  have hcid : c.id = cid := getClient_id_eq hc
  refine ⟨?_, ?_, ?_, ?_, ?_, ?_⟩
  · simp only [step, handleMessage, hc, handleSeek, withRoom, hR, hroom, jsNumOr_none]
    rw [findRoom_setRoom_self _ hroom (by simpa using hid)]
    rfl
  · simp only [step, handleMessage, hc, handleSeek, withRoom, hR, hroom, jsNumOr_some]
    rw [findRoom_setRoom_self _ hroom (by simpa using hid)]
    rfl
  · simp only [step, handleMessage, hc, handleServerPlay, withRoom, hR, hroom, jsNumOr_some]
    rw [findRoom_setRoom_self _ hroom (by simpa using hid)]
    rfl
  · simp only [step, handleMessage, hc, handleServerPlay, withRoom, hR, hroom, jsNumOr_none]
    rw [findRoom_setRoom_self _ hroom (by simpa using hid)]
    rfl
  · simp only [step, handleMessage, hc, handleGetRoomState, withRoom, hR, hroom, hcid]
  · split
    · exact le_max_left 0 _
    · exact le_refl 0

/-- C5 witness at `p = 30` on a playing room. -/
theorem position_field_defaults_and_no_clamp_witness :
    ((findRoom (step
        ⟨[⟨"room1", ["A"], [], ⟨true, some ⟨"s1", "X"⟩, 0, some 900, 900, none, none⟩⟩],
          [⟨"A", some "room1"⟩]⟩ (.msg "A" (.seek none)) 1000).1.rooms "room1").map
        (fun r => r.playbackState.position) = some 0) :=
  (position_field_defaults_and_no_clamp _ "A" "room1" ⟨"A", some "room1"⟩
    ⟨"room1", ["A"], [], ⟨true, some ⟨"s1", "X"⟩, 0, some 900, 900, none, none⟩⟩
    30 1000 none none (by decide) (by decide) (by decide)).1

/-- C5 counterexample: a `seek` to −5 stores the negative value in
`position_seconds` unclamped, refuting "any value below zero is clamped
to 0 wherever it is used". -/
theorem seek_negative_position_not_clamped_cex :
    ((findRoom (step (runEvents [(.connect "A", 0),
          (.msg "A" (.join_room (some "room1")), 0),
          (.msg "A" (.add_song ⟨"s1", "X"⟩ true), 1000)])
        (.msg "A" (.seek (some (-5)))) 2000).1.rooms "room1").map
        (fun r => r.playbackState.position) = some (-5))
    ∧ ¬ ((0 : ℚ) ≤ -5) :=
  ⟨by decide, by norm_num⟩

/-- C6: the startup call is `new MusicSyncServer(process.env.PORT || 8081)`,
so with `PORT` unset the server listens on 8081, not on the constructor
default 8080 documented in the repository README; a non-empty `PORT`
string is passed through unparsed. -/
theorem startup_port_default_is_8081 :
    startupPortArg none = Sum.inr 8081
    ∧ startupPortArg none ≠ Sum.inr constructorPortDefault
    ∧ startupPortArg (some "9000") = Sum.inl "9000" := by
  refine ⟨rfl, ?_, rfl⟩
  decide

/-! ### The playback-state invariant over reachable states -/

/-- Invariant every handler maintains: `startTime` is present exactly when
`isPlaying` is set. -/
def StartTimeOk (ps : PlaybackState) : Prop :=
  ps.startTime.isSome = ps.isPlaying

/-- All rooms of a registry satisfy `StartTimeOk`. -/
def RoomsOk (rs : List Room) : Prop :=
  ∀ r ∈ rs, StartTimeOk r.playbackState

theorem roomsOk_setRoom {rs : List Room} {r' : Room} (h : RoomsOk rs)
    (h' : StartTimeOk r'.playbackState) : RoomsOk (setRoom rs r') := by
  intro x hx
  rcases List.mem_map.1 hx with ⟨a, ha, rfl⟩
  split
  · exact h'
  · exact h a ha

theorem roomsOk_filter {rs : List Room} (p : Room → Bool) (h : RoomsOk rs) :
    RoomsOk (rs.filter p) :=
  fun r hr => h r (List.mem_of_mem_filter hr)

theorem roomsOk_append_single {rs : List Room} {r : Room} (h : RoomsOk rs)
    (h' : StartTimeOk r.playbackState) : RoomsOk (rs ++ [r]) := by
  intro x hx
  rcases List.mem_append.1 hx with hx | hx
  · exact h x hx
  · rcases List.mem_singleton.1 hx with rfl
    exact h'

theorem startTimeOk_fresh (now : ℚ) : StartTimeOk (freshPlayback now) := rfl

theorem roomsOk_handleLeaveRoom {s : ServerState} {c : Client} (h : RoomsOk s.rooms) :
    RoomsOk (handleLeaveRoom s c).1.rooms := by
  simp only [handleLeaveRoom]
  split
  · exact h
  · split
    · exact h
    · next room heq =>
      have hok : StartTimeOk room.playbackState := h room (findRoom_mem heq)
      dsimp only
      split
      · exact roomsOk_filter _ (roomsOk_setRoom h hok)
      · exact roomsOk_setRoom h hok

theorem roomsOk_handleJoinRoom {s : ServerState} {c : Client} {roomId : Option String} {now : ℚ}
    (h : RoomsOk s.rooms) : RoomsOk (handleJoinRoom s c roomId now).1.rooms := by
  cases roomId with
  | none =>
    simp only [handleJoinRoom]
    exact h
  | some rid =>
    simp only [handleJoinRoom]
    split
    · exact h
    · have h1 : RoomsOk (if c.roomId.isSome then (handleLeaveRoom s c).1 else s).rooms := by
        split
        · exact roomsOk_handleLeaveRoom h
        · exact h
      dsimp only
      cases hf : findRoom (if c.roomId.isSome then (handleLeaveRoom s c).1 else s).rooms rid with
      | some r =>
        exact roomsOk_setRoom h1 (h1 r (findRoom_mem hf))
      | none =>
        exact roomsOk_setRoom (roomsOk_append_single h1 (startTimeOk_fresh now))
          (startTimeOk_fresh now)

theorem roomsOk_withRoom {s : ServerState} {c : Client}
    {f : String → Room → ServerState × Sends} (h : RoomsOk s.rooms)
    (hf : ∀ rid room, findRoom s.rooms rid = some room → RoomsOk (f rid room).1.rooms) :
    RoomsOk (withRoom s c f).1.rooms := by
  simp only [withRoom]
  split
  · exact h
  · split
    · exact h
    · next room heq => exact hf _ room heq

theorem roomsOk_step {s : ServerState} {e : Event} {now : ℚ} (h : RoomsOk s.rooms) :
    RoomsOk (step s e now).1.rooms := by
  cases e with
  | connect cid =>
    simp only [step]
    split
    · exact h
    · exact h
  | disconnect cid =>
    simp only [step]
    split
    · exact h
    · exact roomsOk_handleLeaveRoom h
  | msg cid m =>
    show RoomsOk (handleMessage s cid m now).1.rooms
    simp only [handleMessage]
    split
    · exact h
    · next c _ =>
      cases m with
      | join_room rid => exact roomsOk_handleJoinRoom h
      | leave_room => exact roomsOk_handleLeaveRoom h
      | play => exact roomsOk_withRoom h (fun _ _ _ => h)
      | pause => exact roomsOk_withRoom h (fun _ _ _ => h)
      | seek p =>
        refine roomsOk_withRoom h (fun _ room _ => roomsOk_setRoom h ?_)
        show (if room.playbackState.isPlaying
            then some (now - jsNumOr p 0 * 1000) else none).isSome
          = room.playbackState.isPlaying
        cases room.playbackState.isPlaying <;> rfl
      | song_change sg => exact roomsOk_withRoom h (fun _ _ _ => roomsOk_setRoom h rfl)
      | sync_request => exact roomsOk_withRoom h (fun _ _ _ => h)
      | server_play p sid => exact roomsOk_withRoom h (fun _ _ _ => roomsOk_setRoom h rfl)
      | client_pause => exact h
      | client_resume => exact roomsOk_withRoom h (fun _ _ _ => h)
      | playback_ended =>
        refine roomsOk_withRoom h (fun _ room _ => ?_)
        cases room.queue with
        | nil => exact roomsOk_setRoom h rfl
        | cons a l => exact roomsOk_setRoom h rfl
      | get_room_state rq => exact roomsOk_withRoom h (fun _ _ _ => h)
      | add_song sg sac =>
        refine roomsOk_withRoom h (fun _ room hfind => ?_)
        dsimp only
        split
        · exact roomsOk_setRoom h rfl
        · exact roomsOk_setRoom h (h room (findRoom_mem hfind))
      | unknown t => exact h

theorem roomsOk_runEvents (es : List (Event × ℚ)) : RoomsOk (runEvents es).rooms := by
  suffices hgen : ∀ (l : List (Event × ℚ)) (s : ServerState), RoomsOk s.rooms →
      RoomsOk (l.foldl (fun s et => (step s et.1 et.2).1) s).rooms by
    exact hgen es initialState (fun r hr => absurd hr (List.not_mem_nil r))
  intro l
  induction l with
  | nil => exact fun s h => h
  | cons e tail ih => exact fun s h => ih _ (roomsOk_step h)

/-- C2 (amended): in every reachable server state, a playing room has a
`startTime` and a non-playing room has none; the clause
`is_playing ⇒ current_song ≠ none` of the claim does not hold — see the
counterexample — because `server_play` never touches `currentSong`. -/
theorem reachable_playing_iff_startTime
    (es : List (Event × ℚ)) (r : Room) (hr : r ∈ (runEvents es).rooms) :
    (r.playbackState.isPlaying = true → r.playbackState.startTime.isSome = true)
    ∧ (r.playbackState.isPlaying = false → r.playbackState.startTime = none) := by
  have hok := roomsOk_runEvents es r hr
  unfold StartTimeOk at hok
  constructor
  · intro hp
    rw [hok, hp]
  · intro hp
    rw [hp] at hok
    cases hst : r.playbackState.startTime with
    | none => rfl
    | some v =>
      rw [hst] at hok
      exact absurd hok (by simp)

/-- C2 witness: the invariant at the concrete reachable room created by one
join. -/
theorem reachable_playing_iff_startTime_witness :
    ((⟨"R", ["A"], [], freshPlayback 1⟩ : Room).playbackState.isPlaying = true →
      (⟨"R", ["A"], [], freshPlayback 1⟩ : Room).playbackState.startTime.isSome = true)
    ∧ ((⟨"R", ["A"], [], freshPlayback 1⟩ : Room).playbackState.isPlaying = false →
      (⟨"R", ["A"], [], freshPlayback 1⟩ : Room).playbackState.startTime = none) :=
  reachable_playing_iff_startTime
    [(.connect "A", 0), (.msg "A" (.join_room (some "R")), 1)]
    ⟨"R", ["A"], [], freshPlayback 1⟩ (by decide)

/-- C2 counterexample: after `connect`, `join_room`, `server_play` the
reachable room is playing with `startTime` set but `current_song = none`,
so `is_playing ⇒ current_song ≠ none` fails on a reachable state. -/
theorem serverPlay_idle_breaks_currentSong_invariant_cex :
    (findRoom (runEvents [(.connect "A", 0), (.msg "A" (.join_room (some "R")), 0),
        (.msg "A" (.server_play none none), 5)]).rooms "R").map
        (fun r => (r.playbackState.isPlaying, r.playbackState.currentSong,
          r.playbackState.startTime.isSome))
      = some (true, none, true)
    ∧ ¬ (∀ r ∈ (runEvents [(.connect "A", 0), (.msg "A" (.join_room (some "R")), 0),
        (.msg "A" (.server_play none none), 5)]).rooms,
        r.playbackState.isPlaying = true → r.playbackState.currentSong.isSome = true) := by
  have h1 : (findRoom (runEvents [(.connect "A", 0), (.msg "A" (.join_room (some "R")), 0),
      (.msg "A" (.server_play none none), 5)]).rooms "R").map
      (fun r => (r.playbackState.isPlaying, r.playbackState.currentSong,
        r.playbackState.startTime.isSome))
      = some (true, none, true) := by decide
  refine ⟨h1, fun hall => ?_⟩
  cases hfind : findRoom (runEvents [(.connect "A", 0), (.msg "A" (.join_room (some "R")), 0),
      (.msg "A" (.server_play none none), 5)]).rooms "R" with
  | none =>
    rw [hfind] at h1
    exact Option.noConfusion h1
  | some r =>
    rw [hfind] at h1
    have h2 := Option.some.inj h1
    dsimp only at h2
    simp only [Prod.mk.injEq] at h2
    have := hall r (findRoom_mem hfind) h2.1
    rw [h2.2.1] at this
    exact absurd this (by simp)

/-! ### Join and leave: membership and room state around a re-join -/

theorem handleLeaveRoom_clients {s : ServerState} {c : Client} {rid : String}
    (hcr : c.roomId = some rid) :
    (handleLeaveRoom s c).1.clients = setClient s.clients { c with roomId := none } := by
  simp only [handleLeaveRoom, hcr]
  split
  · rfl
  · rfl

theorem handleLeaveRoom_getClient {s : ServerState} {c : Client} {rid : String}
    (hcr : c.roomId = some rid) (hc : getClient s c.id = some c) :
    getClient (handleLeaveRoom s c).1 c.id = some { c with roomId := none } := by
  show ((handleLeaveRoom s c).1.clients).find? (fun x => x.id == c.id)
    = some { c with roomId := none }
  rw [handleLeaveRoom_clients hcr]
  exact find?Client_setClient_self _ hc rfl

theorem handleJoinRoom_getClient {s : ServerState} {c : Client} {rid : String} {now : ℚ}
    (hrid : rid ≠ "") (hc : getClient s c.id = some c) :
    getClient (handleJoinRoom s c (some rid) now).1 c.id
      = some { c with roomId := some rid } := by
  simp only [handleJoinRoom, if_neg hrid]
  show (setClient (if c.roomId.isSome then (handleLeaveRoom s c).1 else s).clients
      { c with roomId := some rid }).find? (fun x => x.id == c.id)
    = some { c with roomId := some rid }
  split
  · next hcr =>
    obtain ⟨rid0, hrid0⟩ := Option.isSome_iff_exists.mp hcr
    exact find?Client_setClient_self _ (handleLeaveRoom_getClient hrid0 hc) rfl
  · exact find?Client_setClient_self _ hc rfl

theorem handleJoinRoom_findRoom_existing {s : ServerState} {c : Client} {rid : String}
    {r : Room} (now : ℚ) (hrid : rid ≠ "")
    (hfind : findRoom (if c.roomId.isSome then (handleLeaveRoom s c).1 else s).rooms rid
      = some r) :
    findRoom (handleJoinRoom s c (some rid) now).1.rooms rid
      = some { r with clients := addClientId r.clients c.id } := by
  simp only [handleJoinRoom, if_neg hrid]
  rw [hfind]
  show findRoom (setRoom (if c.roomId.isSome then (handleLeaveRoom s c).1 else s).rooms
      { r with clients := addClientId r.clients c.id }) rid
    = some { r with clients := addClientId r.clients c.id }
  exact findRoom_setRoom_self _ hfind
    (show r.id = rid from findRoom_id_eq hfind)

theorem handleJoinRoom_findRoom_fresh {s : ServerState} {c : Client} {rid : String}
    (now : ℚ) (hrid : rid ≠ "")
    (hfind : findRoom (if c.roomId.isSome then (handleLeaveRoom s c).1 else s).rooms rid
      = none) :
    findRoom (handleJoinRoom s c (some rid) now).1.rooms rid
      = some { freshRoom rid now with clients := addClientId [] c.id } := by
  simp only [handleJoinRoom, if_neg hrid]
  rw [hfind]
  show findRoom (setRoom ((if c.roomId.isSome then (handleLeaveRoom s c).1 else s).rooms
      ++ [freshRoom rid now])
      { freshRoom rid now with clients := addClientId [] c.id }) rid
    = some { freshRoom rid now with clients := addClientId [] c.id }
  have h2 : findRoom ((if c.roomId.isSome then (handleLeaveRoom s c).1 else s).rooms
      ++ [freshRoom rid now]) rid = some (freshRoom rid now) :=
    findRoom_append_single _ hfind rfl
  exact findRoom_setRoom_self _ h2 rfl

theorem handleLeaveRoom_sole_member_removes {s : ServerState} {c : Client} {rid : String}
    {room : Room} (hcr : c.roomId = some rid)
    (hfind : findRoom s.rooms rid = some room) (hsole : room.clients = [c.id]) :
    findRoom (handleLeaveRoom s c).1.rooms rid = none := by
  simp only [handleLeaveRoom, hcr, hfind]
  have hfil : room.clients.filter (fun w => w != c.id) = [] := by
    rw [hsole]
    simp
  simp [hfil, findRoom_removeRoom_self]

/-- State after a `join_room(R)` message from `cid`. -/
def joinStep (S : ServerState) (cid R : String) (t : ℚ) : ServerState :=
  (step S (.msg cid (.join_room (some R))) t).1

/-- State after a `leave_room` message from `cid`. -/
def leaveStep (S : ServerState) (cid : String) (t : ℚ) : ServerState :=
  (step S (.msg cid .leave_room) t).1

/-- C10: a sole member re-joining its own room first empties and deletes
the room and then re-creates it, so afterwards the member is back in the
room but the playback state is the fresh idle state and the queue is
empty, whatever they were before. -/
theorem sole_member_self_rejoin_resets_room
    (S : ServerState) (cid R : String) (c : Client) (room : Room) (now : ℚ)
    (hc : getClient S cid = some c) (hcr : c.roomId = some R) (hR : R ≠ "")
    (hroom : findRoom S.rooms R = some room) (hsole : room.clients = [cid]) :
    (findRoom (step S (.msg cid (.join_room (some R))) now).1.rooms R).map
        (fun r => (r.playbackState, r.queue, r.clients))
      = some (freshPlayback now, [], [cid]) := by
  have hcid : c.id = cid := getClient_id_eq hc
  have hleave : findRoom (handleLeaveRoom S c).1.rooms R = none :=
    handleLeaveRoom_sole_member_removes hcr hroom (by rw [hsole, hcid])
  have hif : findRoom (if c.roomId.isSome then (handleLeaveRoom S c).1 else S).rooms R
      = none := by
    rw [hcr]
    exact hleave
  have hfresh := handleJoinRoom_findRoom_fresh now hR hif
  simp only [step, handleMessage, hc]
  rw [hfresh]
  simp [freshRoom, addClientId, hcid]

/-- C10 witness: a sole member of a playing room with a queued song
re-joins; the room comes back idle with an empty queue. -/
theorem sole_member_self_rejoin_resets_room_witness :
    (findRoom (step
        ⟨[⟨"room1", ["A"], [⟨"s2", "Y"⟩],
            ⟨true, some ⟨"s1", "X"⟩, 0, some 900, 900, none, none⟩⟩],
          [⟨"A", some "room1"⟩]⟩
        (.msg "A" (.join_room (some "room1"))) 1000).1.rooms "room1").map
        (fun r => (r.playbackState, r.queue, r.clients))
      = some (freshPlayback 1000, [], ["A"]) :=
  sole_member_self_rejoin_resets_room _ "A" "room1" ⟨"A", some "room1"⟩
    ⟨"room1", ["A"], [⟨"s2", "Y"⟩], ⟨true, some ⟨"s1", "X"⟩, 0, some 900, 900, none, none⟩⟩
    1000 (by decide) (by decide) (by decide) (by decide) (by decide)

/-- C9 (amended): after `join_room(R)`, `leave_room`, `join_room(R)` the
session is a member of `R` again; if `R` still existed immediately before
the re-join (other members remained) its playback state is unchanged by
the re-join, but if the session was the sole member `R` was deleted at
the leave and the re-join creates it afresh in the idle state. -/
theorem join_leave_rejoin_membership_and_state
    (S : ServerState) (cid R : String) (c : Client) (t1 t2 t3 : ℚ)
    (hc : getClient S cid = some c) (hR : R ≠ "") :
    getClient (joinStep (leaveStep (joinStep S cid R t1) cid t2) cid R t3) cid
        = some ⟨cid, some R⟩
    ∧ ∃ r3, findRoom (joinStep (leaveStep (joinStep S cid R t1) cid t2) cid R t3).rooms R
          = some r3
        ∧ cid ∈ r3.clients
        ∧ ((∃ r2, findRoom (leaveStep (joinStep S cid R t1) cid t2).rooms R = some r2
              ∧ r3.playbackState = r2.playbackState)
          ∨ (findRoom (leaveStep (joinStep S cid R t1) cid t2).rooms R = none
              ∧ r3.playbackState = freshPlayback t3)) := by
  obtain ⟨cid0, ro⟩ := c
  have hcid : cid0 = cid := getClient_id_eq hc
  rw [hcid] at hc
  have hc2 : getClient S (⟨cid, ro⟩ : Client).id = some ⟨cid, ro⟩ := hc
  set S1 := joinStep S cid R t1 with hS1
  set S2 := leaveStep S1 cid t2 with hS2
  have h1 : getClient S1 cid = some ⟨cid, some R⟩ := by
    rw [hS1]
    simp only [joinStep, step, handleMessage, hc]
    exact handleJoinRoom_getClient hR hc2
  have h1b : getClient S1 (⟨cid, some R⟩ : Client).id = some ⟨cid, some R⟩ := h1
  have h2 : getClient S2 cid = some ⟨cid, none⟩ := by
    rw [hS2]
    simp only [leaveStep, step, handleMessage, h1]
    exact handleLeaveRoom_getClient rfl h1b
  have h2c : getClient S2 (⟨cid, none⟩ : Client).id = some ⟨cid, none⟩ := h2
  constructor
  · simp only [joinStep, step, handleMessage, h2]
    exact handleJoinRoom_getClient hR h2c
  · cases hf2 : findRoom S2.rooms R with
    | some r2 =>
      refine ⟨{ r2 with clients := addClientId r2.clients cid }, ?_, ?_, ?_⟩
      · simp only [joinStep, step, handleMessage, h2]
        have hf2b : findRoom (if (⟨cid, none⟩ : Client).roomId.isSome
            then (handleLeaveRoom S2 ⟨cid, none⟩).1 else S2).rooms R = some r2 := hf2
        exact handleJoinRoom_findRoom_existing t3 hR hf2b
      · show cid ∈ addClientId r2.clients cid
        exact mem_addClientId_self _ _
      · exact Or.inl ⟨r2, rfl, rfl⟩
    | none =>
      refine ⟨{ freshRoom R t3 with clients := addClientId [] cid }, ?_, ?_, ?_⟩
      · simp only [joinStep, step, handleMessage, h2]
        have hf2b : findRoom (if (⟨cid, none⟩ : Client).roomId.isSome
            then (handleLeaveRoom S2 ⟨cid, none⟩).1 else S2).rooms R = none := hf2
        exact handleJoinRoom_findRoom_fresh t3 hR hf2b
      · show cid ∈ addClientId [] cid
        exact mem_addClientId_self _ _
      · exact Or.inr ⟨rfl, rfl⟩

/-- C9 witness: the triple on a freshly connected client. -/
theorem join_leave_rejoin_membership_and_state_witness :
    getClient (joinStep (leaveStep (joinStep ⟨[], [⟨"A", none⟩]⟩ "A" "room1" 1) "A" 2)
        "A" "room1" 3) "A" = some ⟨"A", some "room1"⟩
    ∧ ∃ r3, findRoom (joinStep (leaveStep (joinStep ⟨[], [⟨"A", none⟩]⟩ "A" "room1" 1) "A" 2)
          "A" "room1" 3).rooms "room1" = some r3
        ∧ "A" ∈ r3.clients
        ∧ ((∃ r2, findRoom (leaveStep (joinStep ⟨[], [⟨"A", none⟩]⟩ "A" "room1" 1)
              "A" 2).rooms "room1" = some r2 ∧ r3.playbackState = r2.playbackState)
          ∨ (findRoom (leaveStep (joinStep ⟨[], [⟨"A", none⟩]⟩ "A" "room1" 1) "A" 2).rooms
              "room1" = none
              ∧ r3.playbackState = freshPlayback 3)) :=
  join_leave_rejoin_membership_and_state ⟨[], [⟨"A", none⟩]⟩ "A" "room1" ⟨"A", none⟩ 1 2 3
    (by decide) (by decide)

/-- C9 counterexample: when the session was the sole member, the room is
deleted at the leave and re-created idle at the re-join, so the room's
playback state after the triple is not equal to its (absent) state
immediately before the re-join — the claimed equality fails for this
starting state. -/
theorem rejoin_sole_member_state_not_preserved_cex :
    ¬ ((findRoom (joinStep (leaveStep (joinStep ⟨[], [⟨"A", none⟩]⟩ "A" "room1" 1) "A" 2)
          "A" "room1" 3).rooms "room1").map Room.playbackState
        = (findRoom (leaveStep (joinStep ⟨[], [⟨"A", none⟩]⟩ "A" "room1" 1) "A" 2).rooms
            "room1").map Room.playbackState) := by decide

end MusicSync
